import Mathlib

set_option maxRecDepth 16384

/-!
Verification development for the `commitaura` CLI (a single-file Rust program,
`src/main.rs`): an assistant that turns staged git changes into a commit
message (or a branch name and PR description) via a hosted language model and
applies the result after user confirmation.

The development shallowly embeds the program: every function below is a direct
translation of the correspondingly named Rust function.  External capabilities
are made explicit parameters:
* git commands are stubbed by a `CmdOut` value (the command either fails to
  launch or yields an exit flag / captured stdout),
* the OpenAI chat endpoint is stubbed by an `ApiResult` value (transport error
  or a list of choices, each choice carrying an optional message content),
* the tiktoken p50k BPE is an abstract `Tokenizer` (an `encode`/`decode` pair);
  loading the embedded encoding is modelled as infallible.
Rust panics (arithmetic overflow in debug builds, out-of-bounds slicing) are
modelled explicitly by the `PanicOr` wrapper, since several properties are
about typed errors versus crashes.  Each model additionally reports how many
chat-completion requests were issued, so that "no API call is made" properties
are expressible.
-/

namespace Commitaura

/-- Result of a Rust computation that may abort with a panic instead of
returning.  `panic` carries the panic message. -/
inductive PanicOr (α : Type) where
  | panic (msg : String)
  | value (a : α)
deriving DecidableEq

/-- The error enum `CommitauraError` of src/main.rs (lines 16-36), one
constructor per `#[error(...)]` variant.  Each carries the formatted detail
string where the Rust variant carries a payload. -/
inductive CommitauraError where
  | TokenizerError (detail : String)
  | NoStagedChanges
  | GitOperationFailed (detail : String)
  | ApiRequestFailed (detail : String)
  | EnvVarNotSet (varName : String)
  | OpenAIError (detail : String)
  | TemplateError (detail : String)
  | DialoguerError (detail : String)
  | IoError (detail : String)
deriving DecidableEq

/-- Constructor tag of a `CommitauraError`, used to compare error kinds
independently of the carried detail string. -/
def CommitauraError.kindIndex : CommitauraError → Nat
  | .TokenizerError _ => 0
  | .NoStagedChanges => 1
  | .GitOperationFailed _ => 2
  | .ApiRequestFailed _ => 3
  | .EnvVarNotSet _ => 4
  | .OpenAIError _ => 5
  | .TemplateError _ => 6
  | .DialoguerError _ => 7
  | .IoError _ => 8

/-- Two errors are of the same kind when they are built from the same
constructor of the error enum. -/
def CommitauraError.sameKind (a b : CommitauraError) : Bool :=
  a.kindIndex == b.kindIndex

/-- Rust `str::trim`: remove leading and trailing whitespace characters.
Modelled directly on the character list so that it is computable by the
kernel. -/
def rustTrim (s : String) : String :=
  String.mk (((s.data.dropWhile Char.isWhitespace).reverse.dropWhile
    Char.isWhitespace).reverse)

/-- Rust `str::is_empty` / `String::is_empty` (no trimming). -/
def rustIsEmpty (s : String) : Bool :=
  s.data.isEmpty

/-- Splits a character list at newline characters (keeping empty segments). -/
def splitNewlines : List Char → List (List Char)
  | [] => [[]]
  | c :: rest =>
    if c = '\n' then [] :: splitNewlines rest
    else
      match splitNewlines rest with
      | [] => [[c]]
      | l :: ls => (c :: l) :: ls

/-- Rust `str::lines`: split at `'\n'` (a final trailing newline produces no
extra empty line; a trailing `'\r'` on a line is stripped). -/
def rustLines (s : String) : List String :=
  if s.data.isEmpty then []
  else
    let parts :=
      if s.data.getLast? = some '\n' then (splitNewlines s.data).dropLast
      else splitNewlines s.data
    parts.map (fun l => String.mk (if l.getLast? = some '\r' then l.dropLast else l))

/-- `MODEL_NAME` constant (src/main.rs line 13). -/
def MODEL_NAME : String := "gpt-4o"

/-- `MAX_TOKENS` constant (src/main.rs line 14). -/
def MAX_TOKENS : Nat := 128000

/-- The fixed system message of `generate_commit_message`
(src/main.rs lines 168-169). -/
def system_message : String :=
  "You are a helpful assistant that generates concise and meaningful Git commit messages."

/-- The fixed task instructions of `generate_commit_message`, with the recent
commit subjects interpolated (src/main.rs lines 170-173). -/
def prompt_text (last_commits : String) : String :=
  "Write a concise and meaningful Git commit message based on the following changes (do not include any other text other than the commit message). Do not use the same word at the beginning of every commit message. Be extremely specific. Do not be vague. Consider the context of the last 5 commit messages:\n\nLast 5 commit messages:\n"
    ++ last_commits ++ "\n\nCurrent changes:\n"

/-- The p50k BPE of tiktoken, abstracted to its interface: `encode` turns text
into a token list and `decode` turns a token list back into text (`none` when
the bytes of the token list are not valid UTF-8, which the program maps to
`TokenizerError`). -/
structure Tokenizer where
  encode : String → List Nat
  decode : List Nat → Option String

/-- `estimate_tokens` (src/main.rs lines 240-244): the length of the encoded
token list.  Loading the embedded p50k encoding (`p50k_base()`) is modelled as
infallible; its failure would surface as `TokenizerError`. -/
def estimate_tokens (tok : Tokenizer) (text : String) : Nat :=
  (tok.encode text).length

/-- The token-budgeting and truncation step of `generate_commit_message`
(src/main.rs lines 175-188), faithfully including its two crash modes:

* `MAX_TOKENS - system_tokens - prompt_tokens` is unchecked `usize`
  subtraction; when the fixed prompt cost alone exceeds `MAX_TOKENS` a debug
  build panics right there with "attempt to subtract with overflow" (a release
  build wraps around instead, and the huge wrapped value then makes the
  subsequent slice `tokens[..available_tokens]` panic) — a panic either way,
  modelled as the subtraction panic;
* the slice `tokens[..available_tokens]` panics when `available_tokens`
  exceeds the number of tokens (unreachable under the guarding `if`, but kept
  in the model). -/
def truncate_diff (tok : Tokenizer) (last_commits diff : String) :
    PanicOr (Except CommitauraError String) :=
  let system_tokens := estimate_tokens tok system_message
  let prompt_tokens := estimate_tokens tok (prompt_text last_commits)
  let diff_tokens := estimate_tokens tok diff
  if system_tokens + prompt_tokens + diff_tokens > MAX_TOKENS then
    if MAX_TOKENS < system_tokens + prompt_tokens then
      .panic "attempt to subtract with overflow"
    else
      let available_tokens := MAX_TOKENS - system_tokens - prompt_tokens
      let tokens := tok.encode diff
      if available_tokens ≤ tokens.length then
        match tok.decode (tokens.take available_tokens) with
        | some s => .value (.ok s)
        | none => .value (.error (.TokenizerError "invalid utf-8 in decoded tokens"))
      else .panic "slice index out of range"
  else .value (.ok diff)

/-- Result of a spawned git command: either the process could not be launched
(the `io::Error`, mapped by every caller to `GitOperationFailed`), or it ran
and produced a value (an exit-success flag for `.status()`, captured stdout
for `.output()`; stdout is modelled as already valid UTF-8 — the
`String::from_utf8` failure path also maps to `GitOperationFailed`). -/
inductive CmdOut (α : Type) where
  | launchErr (msg : String)
  | out (a : α)
deriving DecidableEq

/-- Result of launching a git command via `.status()`: launch failure, or an
exit-success flag. -/
inductive LaunchResult where
  | failedToLaunch (msg : String)
  | launched (exitSuccess : Bool)
deriving DecidableEq

/-- Stubbed response of `chat_completion_create`: a transport-level error
(mapped to `OpenAIError`), or a list of choices, each carrying the optional
`message` content. -/
inductive ApiResult where
  | err (msg : String)
  | ok (choices : List (Option String))
deriving DecidableEq

/-- The `choice[0].message` access pattern shared by `generate_commit_message`
(src/main.rs lines 221-227) and `generate_branch_and_pr` (lines 362-368): the
first choice is indexed directly — an empty `choices` vector panics with the
out-of-bounds message — and an absent `message` field becomes
`ApiRequestFailed`. -/
def first_choice_content (choices : List (Option String)) :
    PanicOr (Except CommitauraError String) :=
  match choices with
  | [] => .panic "index out of bounds: the len is 0 but the index is 0"
  | some content :: _ => .value (.ok content)
  | none :: _ => .value (.error (.ApiRequestFailed "No message in API response"))

/-- Result of one model-backed generation: the outcome plus the number of
chat-completion requests issued. -/
structure GenOut (α : Type) where
  result : PanicOr (Except CommitauraError α)
  apiCalls : Nat

/-- `generate_commit_message` (src/main.rs lines 154-238): read the staged
diff (`git diff --staged`), reject an empty diff, budget and truncate, issue
one chat-completion request, extract the first choice, and validate that the
trimmed completion is non-empty.  Prompt assembly for the request (lines
190-215) does not influence the returned value and is elided. -/
def generate_commit_message (tok : Tokenizer) (diff_staged : CmdOut String)
    (api : ApiResult) (last_commits : String) : GenOut String :=
  match diff_staged with
  | .launchErr e => ⟨.value (.error (.GitOperationFailed e)), 0⟩
  | .out diff =>
    if rustIsEmpty (rustTrim diff) then ⟨.value (.error .NoStagedChanges), 0⟩
    else
      match truncate_diff tok last_commits diff with
      | .panic m => ⟨.panic m, 0⟩
      | .value (.error e) => ⟨.value (.error e), 0⟩
      | .value (.ok _truncated) =>
        match api with
        | .err m => ⟨.value (.error (.OpenAIError m)), 1⟩
        | .ok choices =>
          match first_choice_content choices with
          | .panic m => ⟨.panic m, 1⟩
          | .value (.error e) => ⟨.value (.error e), 1⟩
          | .value (.ok content) =>
            let commit_message := rustTrim content
            if rustIsEmpty commit_message then
              ⟨.value (.error
                (.ApiRequestFailed "Received empty commit message from LLM.")), 1⟩
            else ⟨.value (.ok commit_message), 1⟩

/-- `check_staged_changes` (src/main.rs lines 117-128): run
`git diff --staged --quiet`; exit success means no staged changes, which is
the `NoStagedChanges` error; a launch failure is `GitOperationFailed`. -/
def check_staged_changes (diff_quiet : CmdOut Bool) :
    Except CommitauraError Unit :=
  match diff_quiet with
  | .launchErr e => .error (.GitOperationFailed e)
  | .out true => .error .NoStagedChanges
  | .out false => .ok ()

/-- `perform_git_commit` (src/main.rs lines 130-143): run
`git commit -m <message>`; launch failure or a non-success exit status is
`GitOperationFailed`. -/
def perform_git_commit (commit_cmd : LaunchResult) :
    Except CommitauraError Unit :=
  match commit_cmd with
  | .failedToLaunch e => .error (.GitOperationFailed e)
  | .launched true => .ok ()
  | .launched false => .error (.GitOperationFailed "Git commit failed")

/-- Stub environment for one run of the commit task: the tokenizer, the
outcome of each git command the task may spawn, the stubbed API response, and
the answer the user gives to the confirmation prompt. -/
structure CommitEnv where
  tok : Tokenizer
  diff_quiet : CmdOut Bool
  log_last : CmdOut String
  diff_staged : CmdOut String
  api : ApiResult
  user_confirms : Bool
  commit_cmd : LaunchResult

/-- Observable outcome of one run of the commit task: the returned result,
the number of chat-completion requests issued, the messages passed to
`git commit -m` (one entry per spawned commit command), and the status lines
printed at the end. -/
structure RunOut where
  result : PanicOr (Except CommitauraError Unit)
  apiCalls : Nat
  commit_invocations : List String
  printed : List String

/-- `handle_commit` (src/main.rs lines 74-115): check staged changes, fetch
the recent commit subjects, generate a commit message, then either commit it
(confirmation accepted) or print "Commit cancelled." and succeed as a no-op
(confirmation declined).  Terminal rendering (`clear_screen`, spinners, the
commit-list display) is the opaque interaction layer and is modelled as
succeeding; its failures would surface as `IoError` / `TemplateError` /
`DialoguerError`. -/
def handle_commit (env : CommitEnv) : RunOut :=
  match check_staged_changes env.diff_quiet with
  | .error e => ⟨.value (.error e), 0, [], []⟩
  | .ok _ =>
    match env.log_last with
    | .launchErr e => ⟨.value (.error (.GitOperationFailed e)), 0, [], []⟩
    | .out last_commits =>
      let g := generate_commit_message env.tok env.diff_staged env.api last_commits
      match g.result with
      | .panic m => ⟨.panic m, g.apiCalls, [], []⟩
      | .value (.error e) => ⟨.value (.error e), g.apiCalls, [], []⟩
      | .value (.ok commit_message) =>
        if env.user_confirms then
          match perform_git_commit env.commit_cmd with
          | .ok _ =>
            ⟨.value (.ok ()), g.apiCalls, [commit_message], ["Commit successful!"]⟩
          | .error e => ⟨.value (.error e), g.apiCalls, [commit_message], []⟩
        else ⟨.value (.ok ()), g.apiCalls, [], ["Commit cancelled."]⟩

/-- The `Commands` subcommand enum (src/main.rs lines 48-54). -/
inductive Commands where
  | Commit
  | Push
deriving DecidableEq

/-- The task `main` dispatches to.  Translated from the match on
`cli.command` (src/main.rs lines 67-70); the two handler calls are the only
arms, so these are the only actions. -/
inductive Action where
  | doCommit
  | doPush
deriving DecidableEq

/-- The dispatch of `main` (src/main.rs lines 67-70):
`Some(Commands::Commit) | None => handle_commit`, `Some(Commands::Push) =>
handle_push`. -/
def dispatch : Option Commands → Action
  | some .Commit => .doCommit
  | none => .doCommit
  | some .Push => .doPush

/-- Process exit code of `fn main() -> Result<(), CommitauraError>`: `Ok` exits
with status 0, `Err` exits with status 1; a panic aborts the process
abnormally (Rust exit code 101), modelled as `none`. -/
def exit_code : PanicOr (Except CommitauraError Unit) → Option Nat
  | .panic _ => none
  | .value (.ok _) => some 0
  | .value (.error _) => some 1

/-- `main` on the commit path (src/main.rs lines 56-72): the API credential is
read first (`EnvVarNotSet` when absent), then `handle_commit` runs and its
result is returned. -/
def main_run_commit (has_api_key : Bool) (env : CommitEnv) :
    PanicOr (Except CommitauraError Unit) :=
  if has_api_key then (handle_commit env).result
  else .value (.error (.EnvVarNotSet "OPENAI_API_KEY"))

/-- `check_master_branch` (src/main.rs lines 296-314): read the current branch
with `git rev-parse --abbrev-ref HEAD`, trim it, and fail with
`GitOperationFailed` unless it is `master` or `main`. -/
def check_master_branch (rev_parse : CmdOut String) :
    Except CommitauraError Unit :=
  match rev_parse with
  | .launchErr e => .error (.GitOperationFailed e)
  | .out s =>
    let current_branch := rustTrim s
    if current_branch ≠ "master" ∧ current_branch ≠ "main" then
      .error (.GitOperationFailed "Not on master/main branch")
    else .ok ()

/-- The parsing of the model output in `generate_branch_and_pr`
(src/main.rs lines 370-381): trim the content, take the first line as the
branch name (`ApiRequestFailed` when there is none), join the remaining lines
as the PR description. -/
def parse_branch_and_pr (content : String) :
    Except CommitauraError (String × String) :=
  match rustLines (rustTrim content) with
  | [] => .error (.ApiRequestFailed "No branch name generated")
  | b :: rest => .ok (rustTrim b, String.intercalate "\n" rest)

/-- `generate_branch_and_pr` (src/main.rs lines 325-382): issue one
chat-completion request on the unpushed commit subjects, extract the first
choice, and parse branch name and PR description out of the content. -/
def generate_branch_and_pr (api : ApiResult) (_unpushed_commits : String) :
    GenOut (String × String) :=
  match api with
  | .err m => ⟨.value (.error (.OpenAIError m)), 1⟩
  | .ok choices =>
    match first_choice_content choices with
    | .panic m => ⟨.panic m, 1⟩
    | .value (.error e) => ⟨.value (.error e), 1⟩
    | .value (.ok content) => ⟨.value (parse_branch_and_pr content), 1⟩

/-- `create_and_push_branch` (src/main.rs lines 384-396): spawn
`git checkout -b <branch>` and `git push -u origin <branch>`.  Only a launch
failure is mapped to `GitOperationFailed`; the exit statuses of both commands
are discarded (`.status()?` with the `Ok(ExitStatus)` ignored), so commands
that run and fail still yield `Ok`. -/
def create_and_push_branch (checkout_cmd push_cmd : LaunchResult) :
    Except CommitauraError Unit :=
  match checkout_cmd with
  | .failedToLaunch e => .error (.GitOperationFailed e)
  | .launched _ =>
    match push_cmd with
    | .failedToLaunch e => .error (.GitOperationFailed e)
    | .launched _ => .ok ()

/-- Stub environment for one run of the push task. -/
structure PushEnv where
  rev_parse : CmdOut String
  log_unpushed : CmdOut String
  api : ApiResult
  checkout_cmd : LaunchResult
  push_cmd : LaunchResult

/-- Observable outcome of one run of the push task. -/
structure PushOut where
  result : PanicOr (Except CommitauraError Unit)
  apiCalls : Nat

/-- `handle_push` (src/main.rs lines 260-294): check the trunk-branch
precondition, read the unpushed commit subjects (failing when there are
none — Rust `String::is_empty`, no trimming), generate branch name and PR
description, create and push the branch, and print the PR stub
(`create_pull_request`, lines 398-405, only prints and returns `Ok`). -/
def handle_push (env : PushEnv) : PushOut :=
  match check_master_branch env.rev_parse with
  | .error e => ⟨.value (.error e), 0⟩
  | .ok _ =>
    match env.log_unpushed with
    | .launchErr e => ⟨.value (.error (.GitOperationFailed e)), 0⟩
    | .out unpushed_commits =>
      if rustIsEmpty unpushed_commits then
        ⟨.value (.error (.GitOperationFailed "No unpushed commits found")), 0⟩
      else
        let g := generate_branch_and_pr env.api unpushed_commits
        match g.result with
        | .panic m => ⟨.panic m, g.apiCalls⟩
        | .value (.error e) => ⟨.value (.error e), g.apiCalls⟩
        | .value (.ok (branch_name, pr_description)) =>
          match create_and_push_branch env.checkout_cmd env.push_cmd with
          | .error e => ⟨.value (.error e), g.apiCalls⟩
          | .ok _ =>
            let _ := branch_name
            let _ := pr_description
            ⟨.value (.ok ()), g.apiCalls⟩

/-! Concrete tokenizers and environments used to exercise the model on
closed inputs. -/

/-- A degenerate tokenizer for concrete runs that never trigger truncation:
everything encodes to zero tokens. -/
def tok0 : Tokenizer where
  encode := fun _ => []
  decode := fun _ => some ""

/-- A weighted tokenizer for concrete truncation runs: every character costs
250 tokens, and decoding yields one character per 250 tokens. -/
def wTok : Tokenizer where
  encode := fun s => List.replicate (250 * s.length) 0
  decode := fun ts => some (String.mk (List.replicate (ts.length / 250) 'a'))

/-- A heavy tokenizer under which the fixed prompt cost alone exceeds
`MAX_TOKENS`: every character costs 2000 tokens. -/
def cTok : Tokenizer where
  encode := fun s => List.replicate (2000 * s.length) 0
  decode := fun ts => some (String.mk (List.replicate (ts.length / 2000) 'a'))

/-- A commit-task run whose stubbed completion is whitespace only. -/
def env_empty_completion : CommitEnv where
  tok := tok0
  diff_quiet := .out false
  log_last := .out ""
  diff_staged := .out "x"
  api := .ok [some "   "]
  user_confirms := true
  commit_cmd := .launched true

/-- A commit-task run whose stubbed response carries a choice with no
`message` field. -/
def env_missing_message : CommitEnv where
  tok := tok0
  diff_quiet := .out false
  log_last := .out ""
  diff_staged := .out "x"
  api := .ok [none]
  user_confirms := true
  commit_cmd := .launched true

/-- A commit-task run matching the scenario of spec section 8: the stubbed
completion is a concrete commit message and the confirmation is accepted. -/
def env_accept : CommitEnv where
  tok := tok0
  diff_quiet := .out false
  log_last := .out ""
  diff_staged := .out "x"
  api := .ok [some "Fix parser off-by-one in tokenizer.rs"]
  user_confirms := true
  commit_cmd := .launched true

/-- The same run with the confirmation declined. -/
def env_decline : CommitEnv where
  tok := tok0
  diff_quiet := .out false
  log_last := .out ""
  diff_staged := .out "x"
  api := .ok [some "Fix parser off-by-one in tokenizer.rs"]
  user_confirms := false
  commit_cmd := .launched true

/-- A commit-task run with an empty staged diff (and a consistent
`git diff --staged --quiet` exit). -/
def env_empty_diff : CommitEnv where
  tok := tok0
  diff_quiet := .out true
  log_last := .out ""
  diff_staged := .out ""
  api := .ok [some "never used"]
  user_confirms := true
  commit_cmd := .launched true

/-- A push-task run started on a feature branch. -/
def env_feature_branch : PushEnv where
  rev_parse := .out "feature-x\n"
  log_unpushed := .out "subject"
  api := .ok [some "branch\ndescription"]
  checkout_cmd := .launched true
  push_cmd := .launched true

/-- A 100-character diff: large enough to trigger truncation under `wTok`. -/
def diff_large : String := String.mk (List.replicate 100 'b')

/-- The decoding of the 19750-token prefix that `wTok` truncation of
`diff_large` produces: 79 characters. -/
def diff_fitted : String := String.mk (List.replicate 79 'a')

/-! Helper lemmas about the fixtures. -/

theorem string_length_mk (l : List Char) : (String.mk l).length = l.length := rfl

theorem system_message_length : system_message.length = 86 := by decide

theorem prompt_text_empty_length : (prompt_text "").length = 347 := by decide

theorem estimate_wTok (s : String) : estimate_tokens wTok s = 250 * s.length := by
  simp [estimate_tokens, wTok]

theorem estimate_cTok (s : String) : estimate_tokens cTok s = 2000 * s.length := by
  simp [estimate_tokens, cTok]

theorem wTok_decode_eq (ts : List Nat) :
    wTok.decode ts = some (String.mk (List.replicate (ts.length / 250) 'a')) := rfl

theorem wTok_encode_len (s : String) : (wTok.encode s).length = 250 * s.length := by
  simp [wTok]

/-- Re-encoding any text decoded by `wTok` costs no more tokens than the list
it was decoded from. -/
theorem wTok_reencode_le (ts : List Nat) (s : String)
    (h : wTok.decode ts = some s) : (wTok.encode s).length ≤ ts.length := by
  rw [wTok_decode_eq] at h
  have hx : String.mk (List.replicate (ts.length / 250) 'a') = s := Option.some.inj h
  subst hx
  rw [wTok_encode_len, string_length_mk, List.length_replicate]
  calc 250 * (ts.length / 250) = ts.length / 250 * 250 := Nat.mul_comm _ _
    _ ≤ ts.length := Nat.div_mul_le_self _ _

/-! The claims. -/

/-- Claim C1 (code bug): the spec demands that when the token cost of the
fixed prompt portions alone exceeds `MAX_TOKENS`, budgeting fails fast with a
typed fatal error (`TokenizationFailed`, i.e. the `TokenizerError` kind)
before any network call.  The code instead panics: line 181 computes
`MAX_TOKENS - system_tokens - prompt_tokens` with unchecked `usize`
subtraction, which underflows.  This theorem evaluates the model at such an
input — a tokenizer costing 2000 tokens per character makes the system
message alone cost 172000 > 128000 tokens — and shows the outcome is the
panic, reached before any chat-completion request is issued (zero API calls,
even though the stubbed API response is available). -/
theorem C1_fixed_cost_overflow_panics :
    (generate_commit_message cTok (.out "x") (.ok [some "unused"]) "").result
      = .panic "attempt to subtract with overflow"
    ∧ (generate_commit_message cTok (.out "x") (.ok [some "unused"]) "").apiCalls = 0 := by
  have hx : ("x" : String).length = 1 := by decide
  have htd : truncate_diff cTok "" "x" = .panic "attempt to subtract with overflow" := by
    simp only [truncate_diff, estimate_cTok, system_message_length,
      prompt_text_empty_length, hx]
    norm_num [MAX_TOKENS]
  have hni : rustIsEmpty (rustTrim "x") = false := by decide
  refine ⟨?_, ?_⟩ <;> simp [generate_commit_message, hni, htd]

/-- Claim C2 (confirmed): whenever truncation is triggered and the fixed
prompt cost respects the budget invariant (its violation is the separately
reported defect of claim C1), the budgeting step of `generate_commit_message`
returns — without panicking — the decoding of a prefix of the tokenized diff
(content removed from the end only); the result re-encodes to at most
`available_tokens` tokens; and running the budgeting step again on the result
returns it unchanged (idempotence).  The hypotheses `hre` and `hdec` are the
contract of the external BPE capability: re-encoding decoded text never
yields more tokens than were decoded, and decoding the truncated prefix
succeeds. -/
theorem C2_truncate_fits_and_idempotent (tok : Tokenizer)
    (last_commits diff fitted : String)
    (hre : ∀ ts s, tok.decode ts = some s → (tok.encode s).length ≤ ts.length)
    (hfix : estimate_tokens tok system_message
        + estimate_tokens tok (prompt_text last_commits) ≤ MAX_TOKENS)
    (htrig : MAX_TOKENS < estimate_tokens tok system_message
        + estimate_tokens tok (prompt_text last_commits) + estimate_tokens tok diff)
    (hdec : tok.decode ((tok.encode diff).take
        (MAX_TOKENS - estimate_tokens tok system_message
          - estimate_tokens tok (prompt_text last_commits))) = some fitted) :
    truncate_diff tok last_commits diff = .value (.ok fitted)
    ∧ estimate_tokens tok fitted
        ≤ MAX_TOKENS - estimate_tokens tok system_message
          - estimate_tokens tok (prompt_text last_commits)
    ∧ truncate_diff tok last_commits fitted = .value (.ok fitted) := by
  have hdt : estimate_tokens tok diff = (tok.encode diff).length := rfl
  have hle : MAX_TOKENS - estimate_tokens tok system_message
      - estimate_tokens tok (prompt_text last_commits) ≤ (tok.encode diff).length := by
    omega
  have hfit2 : (tok.encode fitted).length
      ≤ MAX_TOKENS - estimate_tokens tok system_message
        - estimate_tokens tok (prompt_text last_commits) := by
    have h2 := hre _ _ hdec
    rw [List.length_take] at h2
    exact le_trans h2 (min_le_left _ _)
  have hfe : estimate_tokens tok fitted = (tok.encode fitted).length := rfl
  refine ⟨?_, hfit2, ?_⟩
  · simp only [truncate_diff]
    rw [if_pos htrig, if_neg (by omega), if_pos hle, hdec]
  · simp only [truncate_diff]
    rw [if_neg (by omega)]

/-- Witness for C2: under `wTok` (250 tokens per character) with empty recent
commits, a 100-character diff costs 25000 tokens against an available budget
of 19750, so truncation fires and produces the 79-character decoding, which
fits the budget exactly and is a fixed point of the budgeting step. -/
theorem C2_witness :
    truncate_diff wTok "" diff_large = .value (.ok diff_fitted)
    ∧ estimate_tokens wTok diff_fitted
        ≤ MAX_TOKENS - estimate_tokens wTok system_message
          - estimate_tokens wTok (prompt_text "")
    ∧ truncate_diff wTok "" diff_fitted = .value (.ok diff_fitted) := by
  have hdl : diff_large.length = 100 := by
    rw [diff_large, string_length_mk, List.length_replicate]
  refine C2_truncate_fits_and_idempotent wTok "" diff_large diff_fitted
    wTok_reencode_le ?_ ?_ ?_
  · rw [estimate_wTok, estimate_wTok, system_message_length, prompt_text_empty_length]
    decide
  · rw [estimate_wTok, estimate_wTok, estimate_wTok, system_message_length,
      prompt_text_empty_length, hdl]
    decide
  · rw [estimate_wTok, estimate_wTok, system_message_length, prompt_text_empty_length]
    have henc : wTok.encode diff_large = List.replicate 25000 0 := rfl
    have hsub : MAX_TOKENS - 250 * 86 - 250 * 347 = 19750 := by decide
    rw [hsub, henc, List.take_replicate]
    have hmin : (19750 : Nat) ⊓ 25000 = 19750 := by decide
    rw [hmin, wTok_decode_eq, List.length_replicate]
    have hdiv : (19750 : Nat) / 250 = 79 := by decide
    rw [hdiv]
    rfl

/-- Counterexample for claim C3: the claim names a dedicated `EmptyCompletion`
error kind, but the error enum of the program has no such kind.  A run whose
stubbed completion is whitespace-only fails with `ApiRequestFailed` — the
very same kind the code uses for a malformed response whose first choice has
no `message` field — so the validator rejection is not a distinct kind. -/
theorem C3_counterexample :
    (handle_commit env_empty_completion).result
      = .value (.error (.ApiRequestFailed "Received empty commit message from LLM."))
    ∧ (handle_commit env_missing_message).result
      = .value (.error (.ApiRequestFailed "No message in API response"))
    ∧ CommitauraError.sameKind
        (.ApiRequestFailed "Received empty commit message from LLM.")
        (.ApiRequestFailed "No message in API response") = true :=
  ⟨rfl, rfl, rfl⟩

/-- Claim C3 (corrected): amended statement — the validator trims the
completion; when the result is empty the pipeline fails with the program's
`ApiRequestFailed` kind carrying "Received empty commit message from LLM."
(there is no dedicated `EmptyCompletion` kind) and spawns no git commit
command; when the result is non-empty after trimming, the trimmed text passes
through validation unchanged as the generated message. -/
theorem C3_empty_completion_amended (env : CommitEnv)
    (last_commits diff fitted content : String) (rest : List (Option String))
    (hq : env.diff_quiet = .out false)
    (hl : env.log_last = .out last_commits)
    (hd : env.diff_staged = .out diff)
    (hne : rustIsEmpty (rustTrim diff) = false)
    (ht : truncate_diff env.tok last_commits diff = .value (.ok fitted))
    (hapi : env.api = .ok (some content :: rest)) :
    (rustIsEmpty (rustTrim content) = true →
      (handle_commit env).result
        = .value (.error (.ApiRequestFailed "Received empty commit message from LLM."))
      ∧ (handle_commit env).commit_invocations = [])
    ∧ (rustIsEmpty (rustTrim content) = false →
      (generate_commit_message env.tok env.diff_staged env.api last_commits).result
        = .value (.ok (rustTrim content))) := by
  constructor
  · intro hc
    simp only [handle_commit, check_staged_changes, generate_commit_message,
      first_choice_content, hq, hl, hd, hne, ht, hapi, hc]
    exact ⟨rfl, rfl⟩
  · intro hc
    simp [generate_commit_message, first_choice_content, hd, hne, ht, hapi, hc]

/-- Witness for C3: the amended claim evaluated on the whitespace-completion
run. -/
theorem C3_witness :
    (handle_commit env_empty_completion).result
      = .value (.error (.ApiRequestFailed "Received empty commit message from LLM."))
    ∧ (handle_commit env_empty_completion).commit_invocations = [] :=
  (C3_empty_completion_amended env_empty_completion "" "x" "x" "   " []
    rfl rfl rfl rfl rfl rfl).1 rfl

/-- Claim C4 (confirmed): with an empty staged diff the commit pipeline fails
with `NoStagedChanges` and issues no chat-completion request and no git
commit command.  This holds whether the `git diff --staged --quiet` presence
check reports the absence (exit 0) or not: in the latter case the emptiness
recheck inside `generate_commit_message` still fires before the API call. -/
theorem C4_empty_diff_no_api_call (env : CommitEnv) (q : Bool)
    (last_commits diff : String)
    (hq : env.diff_quiet = .out q)
    (hl : env.log_last = .out last_commits)
    (hd : env.diff_staged = .out diff)
    (he : rustIsEmpty (rustTrim diff) = true) :
    (handle_commit env).result = .value (.error .NoStagedChanges)
    ∧ (handle_commit env).apiCalls = 0
    ∧ (handle_commit env).commit_invocations = [] := by
  cases q
  · simp [handle_commit, check_staged_changes, generate_commit_message,
      hq, hl, hd, he]
  · simp [handle_commit, check_staged_changes, hq]

/-- Witness for C4: the empty-diff run (consistent presence check). -/
theorem C4_witness :
    (handle_commit env_empty_diff).result = .value (.error .NoStagedChanges)
    ∧ (handle_commit env_empty_diff).apiCalls = 0
    ∧ (handle_commit env_empty_diff).commit_invocations = [] :=
  C4_empty_diff_no_api_call env_empty_diff true "" "" rfl rfl rfl rfl

/-- Counterexample for claim C5: the claim says the branch-creation/push
operations report `GitOperationFailed` whenever the underlying git command
exits unsuccessfully.  In `create_and_push_branch` both `git checkout -b` and
`git push -u origin` run with their exit statuses discarded, so a run where
both commands exit with failure still returns `Ok`. -/
theorem C5_counterexample :
    create_and_push_branch (.launched false) (.launched false) = .ok () := rfl

/-- Claim C5 (corrected): amended statement — launch failures of the modelled
VCS invocations map to `GitOperationFailed`, and the commit applier
(`perform_git_commit`) additionally reports `GitOperationFailed` on a
non-success exit status; but `create_and_push_branch` ignores the exit
statuses of checkout and push, succeeding whenever both commands launch. -/
theorem C5_git_failure_amended :
    (∀ e, perform_git_commit (.failedToLaunch e)
      = .error (.GitOperationFailed e))
    ∧ perform_git_commit (.launched false)
      = .error (.GitOperationFailed "Git commit failed")
    ∧ perform_git_commit (.launched true) = .ok ()
    ∧ (∀ e p, create_and_push_branch (.failedToLaunch e) p
      = .error (.GitOperationFailed e))
    ∧ (∀ b e, create_and_push_branch (.launched b) (.failedToLaunch e)
      = .error (.GitOperationFailed e))
    ∧ (∀ b b2, create_and_push_branch (.launched b) (.launched b2) = .ok ()) :=
  ⟨fun _ => rfl, rfl, rfl, fun _ _ => rfl, fun _ _ => rfl, fun _ _ => rfl⟩

/-- Witness for C5: the amended claim evaluated at concrete launch results. -/
theorem C5_witness :
    perform_git_commit (.launched false)
      = .error (.GitOperationFailed "Git commit failed")
    ∧ create_and_push_branch (.launched true) (.launched true) = .ok () :=
  ⟨C5_git_failure_amended.2.1, C5_git_failure_amended.2.2.2.2.2 true true⟩

/-- Claim C6 (confirmed): when generation succeeds with a validated message
and the user accepts the confirmation prompt, exactly one git commit command
is spawned and its message is exactly the validated (trimmed) completion
text. -/
theorem C6_accept_commits_exact_message (env : CommitEnv)
    (last_commits diff fitted content : String) (rest : List (Option String))
    (hq : env.diff_quiet = .out false)
    (hl : env.log_last = .out last_commits)
    (hd : env.diff_staged = .out diff)
    (hne : rustIsEmpty (rustTrim diff) = false)
    (ht : truncate_diff env.tok last_commits diff = .value (.ok fitted))
    (hapi : env.api = .ok (some content :: rest))
    (hcm : rustIsEmpty (rustTrim content) = false)
    (hu : env.user_confirms = true)
    (hc : env.commit_cmd = .launched true) :
    (handle_commit env).result = .value (.ok ())
    ∧ (handle_commit env).commit_invocations = [rustTrim content] := by
  simp only [handle_commit, check_staged_changes, generate_commit_message,
    first_choice_content, perform_git_commit, hq, hl, hd, hne, ht, hapi, hcm,
    hu, hc]
  exact ⟨rfl, rfl⟩

/-- Witness for C6: the spec scenario — completion
"Fix parser off-by-one in tokenizer.rs", confirmation accepted — issues that
exact message once. -/
theorem C6_witness :
    (handle_commit env_accept).result = .value (.ok ())
    ∧ (handle_commit env_accept).commit_invocations
      = ["Fix parser off-by-one in tokenizer.rs"] :=
  C6_accept_commits_exact_message env_accept ""
    "x" "x" "Fix parser off-by-one in tokenizer.rs" []
    rfl rfl rfl rfl rfl rfl rfl rfl rfl

/-- Claim C7 (confirmed): when the user declines the confirmation prompt the
commit task terminates as a non-error no-op — no git commit command is
spawned, "Commit cancelled." is printed, `handle_commit` returns `Ok`, and
the process exit status is zero. -/
theorem C7_decline_is_noop (env : CommitEnv)
    (last_commits diff fitted content : String) (rest : List (Option String))
    (hq : env.diff_quiet = .out false)
    (hl : env.log_last = .out last_commits)
    (hd : env.diff_staged = .out diff)
    (hne : rustIsEmpty (rustTrim diff) = false)
    (ht : truncate_diff env.tok last_commits diff = .value (.ok fitted))
    (hapi : env.api = .ok (some content :: rest))
    (hcm : rustIsEmpty (rustTrim content) = false)
    (hu : env.user_confirms = false) :
    (handle_commit env).result = .value (.ok ())
    ∧ (handle_commit env).commit_invocations = []
    ∧ (handle_commit env).printed = ["Commit cancelled."]
    ∧ exit_code (main_run_commit true env) = some 0 := by
  simp only [handle_commit, check_staged_changes, generate_commit_message,
    first_choice_content, main_run_commit, exit_code, hq, hl, hd, hne, ht,
    hapi, hcm, hu]
  exact ⟨rfl, rfl, rfl, rfl⟩

/-- Witness for C7: the declined run exits zero with no commit. -/
theorem C7_witness :
    (handle_commit env_decline).result = .value (.ok ())
    ∧ (handle_commit env_decline).commit_invocations = []
    ∧ (handle_commit env_decline).printed = ["Commit cancelled."]
    ∧ exit_code (main_run_commit true env_decline) = some 0 :=
  C7_decline_is_noop env_decline ""
    "x" "x" "Fix parser off-by-one in tokenizer.rs" []
    rfl rfl rfl rfl rfl rfl rfl rfl

/-- Claim C8 (confirmed): the push task evaluates the trunk-branch
precondition first; when the current branch is neither `master` nor `main`
it fails with `GitOperationFailed` and no chat-completion request is ever
issued. -/
theorem C8_push_requires_trunk (env : PushEnv) (s : String)
    (hr : env.rev_parse = .out s)
    (h1 : rustTrim s ≠ "master")
    (h2 : rustTrim s ≠ "main") :
    (handle_push env).result
      = .value (.error (.GitOperationFailed "Not on master/main branch"))
    ∧ (handle_push env).apiCalls = 0 := by
  simp only [handle_push, check_master_branch, hr]
  rw [if_pos ⟨h1, h2⟩]
  exact ⟨rfl, rfl⟩

/-- Witness for C8: a run started on branch `feature-x`. -/
theorem C8_witness :
    (handle_push env_feature_branch).result
      = .value (.error (.GitOperationFailed "Not on master/main branch"))
    ∧ (handle_push env_feature_branch).apiCalls = 0 :=
  C8_push_requires_trunk env_feature_branch "feature-x\n" rfl
    (by decide) (by decide)

/-- Counterexample for claim C9: the claim says an interactive menu is
offered when no subcommand is given.  The dispatch of `main` sends the
no-subcommand case to the very same action as the explicit `commit`
subcommand — the two invocations are indistinguishable, so no task-selection
step exists (the action type, translated from the match arms of `main`, has
no menu action at all). -/
theorem C9_counterexample : dispatch none = dispatch (some Commands.Commit) := rfl

/-- Claim C9 (corrected): amended statement — when invoked with no
subcommand the program runs the commit task directly; no interactive
task-selection menu is offered. -/
theorem C9_no_menu_amended : dispatch none = Action.doCommit := rfl

/-- Claim C10 (confirmed): in both `generate_commit_message` and
`generate_branch_and_pr` the first element of the response's choices list is
indexed directly without a non-emptiness check: when the response carries at
least one choice and the first choice has no `message` field, both functions
return the typed `ApiRequestFailed` error; when the choices list is empty,
both panic with the out-of-bounds index message instead of returning a typed
error. -/
theorem C10_first_choice_indexing (tok : Tokenizer)
    (last_commits diff fitted unpushed : String) (rest : List (Option String))
    (hne : rustIsEmpty (rustTrim diff) = false)
    (ht : truncate_diff tok last_commits diff = .value (.ok fitted)) :
    (generate_commit_message tok (.out diff) (.ok (none :: rest)) last_commits).result
      = .value (.error (.ApiRequestFailed "No message in API response"))
    ∧ (generate_branch_and_pr (.ok (none :: rest)) unpushed).result
      = .value (.error (.ApiRequestFailed "No message in API response"))
    ∧ (generate_commit_message tok (.out diff) (.ok []) last_commits).result
      = .panic "index out of bounds: the len is 0 but the index is 0"
    ∧ (generate_branch_and_pr (.ok []) unpushed).result
      = .panic "index out of bounds: the len is 0 but the index is 0" := by
  refine ⟨?_, rfl, ?_, rfl⟩
  · simp [generate_commit_message, first_choice_content, hne, ht]
  · simp [generate_commit_message, first_choice_content, hne, ht]

/-- Witness for C10: concrete responses with a message-less first choice and
with an empty choices list. -/
theorem C10_witness :
    (generate_commit_message tok0 (.out "x") (.ok [none]) "").result
      = .value (.error (.ApiRequestFailed "No message in API response"))
    ∧ (generate_branch_and_pr (.ok [none]) "subject").result
      = .value (.error (.ApiRequestFailed "No message in API response"))
    ∧ (generate_commit_message tok0 (.out "x") (.ok []) "").result
      = .panic "index out of bounds: the len is 0 but the index is 0"
    ∧ (generate_branch_and_pr (.ok []) "subject").result
      = .panic "index out of bounds: the len is 0 but the index is 0" :=
  C10_first_choice_indexing tok0 "" "x" "x" "subject" [] rfl rfl

end Commitaura
